import Mathlib

/-!
Shallow embedding of the `ContactManager` class of `contact_manager.py`
(a local contact record store with validation, duplicate detection,
bounded undo history, CSV import and backup restore).

Modelling conventions:
* A contact dict is the structure `Contact` with the seven keys of the
  source as string fields.
* `uuid.uuid4()` and `datetime.now().isoformat()` are external effects;
  the generated id / timestamp is passed to each operation as an input.
* `self.undo_stack = deque(maxlen=10)` is a `List UndoAction` whose most
  recent entry is last; `pushUndo` reproduces the deque append that drops
  the oldest entry once the length would exceed 10.
* Disk state: the JSON contents of `self.filename` are the `file` field
  of `ContactManager`; `save_contacts` overwrites it with the current
  list (the timestamped backup copy it also makes is not tracked).
  Disk writes are assumed to succeed.
* Python exceptions / `None` results are `Option`; a `messagebox`
  warning is recorded as a plain string where a claim mentions it.
-/

structure Contact where
  id : String
  name : String
  phone : String
  email : String
  category : String
  notes : String
  last_modified : String
deriving Repr, DecidableEq

inductive UndoAction where
  | add (c : Contact)
  | del (c : Contact)
  | upd (old new : Contact)
  | imp (cs : List Contact)
  | restore (cs : List Contact)
deriving Repr, DecidableEq

structure ContactManager where
  contacts : List Contact
  undo_stack : List UndoAction
  file : List Contact
deriving Repr, DecidableEq

/-- Python `str.strip()` / `str.lower()` are modelled on the character
list (ASCII whitespace and ASCII case, which covers every string the
source compares). -/
def isSpaceChar (c : Char) : Bool :=
  c = ' ' || c = '\t' || c = '\n' || c = '\r'

def pyStrip (s : String) : String :=
  String.mk (((s.data.dropWhile isSpaceChar).reverse.dropWhile isSpaceChar).reverse)

def pyLower (s : String) : String :=
  String.mk (s.data.map Char.toLower)

/-- The `maxlen=10` bound of the undo deque. -/
def UNDO_MAXLEN : Nat := 10

/-- `deque.append` with `maxlen=10`: append on the right, silently drop
from the left once the length would exceed the bound. -/
def pushUndo (stack : List UndoAction) (a : UndoAction) : List UndoAction :=
  let s := stack ++ [a]
  s.drop (s.length - UNDO_MAXLEN)

/-- Modelled from the spec: the `phonenumbers` dependency is not part of
this repository's sources.  `phonenumbers.parse(phone, None)` is a
region-agnostic parse: with no default region it accepts only numbers
carrying an explicit `+` country code, tolerating common separator
characters; it raises `NumberParseException` otherwise.  The model keeps
the digit list of a successfully parsed number. -/
def phoneSeparator (c : Char) : Bool :=
  c = ' ' || c = '-' || c = '(' || c = ')' || c = '.'

def phoneParse (phone : String) : Option (List Char) :=
  match phone.data.filter (fun c => !phoneSeparator c) with
  | '+' :: ds => if ds ≠ [] && ds.all Char.isDigit then some ds else none
  | _ => none

/-- Modelled from the spec: `PhoneNumberFormat.E164` renders a parsed
number as `+` followed by its digits, with no separators. -/
def phoneFormatE164 (ds : List Char) : String :=
  String.mk ('+' :: ds)

/-- Modelled from the spec: `phonenumbers.is_valid_number`, approximated
by a plausible international digit-count range. -/
def phoneIsValid (ds : List Char) : Bool :=
  8 ≤ ds.length && ds.length ≤ 15

/-- Phone normalization as `is_duplicate` performs it: canonical E.164
on parse success, the raw string as fallback when parsing fails. -/
def normalizePhone (phone : String) : String :=
  match phoneParse phone with
  | some ds => phoneFormatE164 ds
  | none => phone

/-- Modelled from the spec: the `email_validator` dependency is not part
of this repository's sources; a standard address-syntax check, reduced
to: one `@` separating a non-empty local part from a domain that
contains a dot. -/
def emailOk (email : String) : Bool :=
  let lp := email.data.takeWhile (fun c => c != '@')
  match email.data.dropWhile (fun c => c != '@') with
  | '@' :: dom =>
    !lp.isEmpty && !dom.isEmpty && !(dom.contains '@') && dom.contains '.'
  | _ => false

/-- The character class of `^[A-Za-z\s]{1,100}$` (`\s` modelled as the
common ASCII whitespace characters). -/
def isNameChar (c : Char) : Bool :=
  c.isAlpha || c = ' ' || c = '\t' || c = '\n' || c = '\r'

def nameOk (name : String) : Bool :=
  1 ≤ name.length && name.length ≤ 100 && name.data.all isNameChar

/-- `ContactManager.validate_inputs`.  Note: on phone success the source
computes the E.164 form into the local variable `phone` and then
discards it — the normalized string never leaves `validate_inputs`,
which returns only `(is_valid, error_message)`. -/
def validate_inputs (name phone email : String) : Bool × String :=
  let name := pyStrip name
  let phone := pyStrip phone
  let email := pyStrip email
  if name = "" then (false, "Name is required.")
  else if !(nameOk name) then
    (false, "Name can only contain letters and spaces (max 100 characters).")
  else
    match phoneParse phone with
    | none => (false, "Invalid phone number format.")
    | some ds =>
      if !(phoneIsValid ds) then
        (false, "Invalid phone number format (e.g., +1234567890).")
      else if email ≠ "" && !(emailOk email) then
        (false, "Invalid email format: " ++ email)
      else (true, "")

/-- `ContactManager.is_duplicate`: normalizes the queried phone (raw
fallback on parse failure) and scans for a contact matching on
case-insensitive name, OR on the stored phone string equalling the
normalized query, OR (when the queried email is non-empty) on
case-insensitive email. -/
def is_duplicate (cm : ContactManager) (name phone email : String) : Bool :=
  let normalized := normalizePhone phone
  cm.contacts.any (fun c =>
    pyLower c.name == pyLower name ||
    c.phone == normalized ||
    (email ≠ "" && pyLower c.email == pyLower email))

/-- `ContactManager.save_contacts`: write the current list to the store
file (the backup copy of the previous file contents is untracked). -/
def save_contacts (cm : ContactManager) : ContactManager :=
  { cm with file := cm.contacts }

/-- `ContactManager.add_contact`.  `newId` and `now` stand for the
freshly generated `uuid4` and timestamp.  The record stores the `phone`
argument exactly as passed by the caller. -/
def add_contact (cm : ContactManager) (newId now name phone email category notes : String) :
    Option Contact × ContactManager :=
  let contact : Contact := ⟨newId, name, phone, email, category, notes, now⟩
  if is_duplicate cm name phone email then (none, cm)
  else
    (some contact,
     save_contacts
       { cm with
         undo_stack := pushUndo cm.undo_stack (UndoAction.add contact),
         contacts := cm.contacts ++ [contact] })

/-- The `for contact in self.contacts` loop of `update_contact`: update
the first record whose id matches, returning the new list together with
the pre-mutation snapshot and the mutated record. -/
def updateFirst (now contact_id name phone email category notes : String) :
    List Contact → Option (List Contact × Contact × Contact)
  | [] => none
  | c :: rest =>
    if c.id == contact_id then
      let c2 : Contact := ⟨c.id, name, phone, email, category, notes, now⟩
      some (c2 :: rest, c, c2)
    else
      match updateFirst now contact_id name phone email category notes rest with
      | none => none
      | some (rest2, old, new) => some (c :: rest2, old, new)

/-- `ContactManager.update_contact`: locate by id; if absent return
`false` without touching anything; else overwrite all fields plus the
timestamp, push an `upd` entry, save, return `true`. -/
def update_contact (cm : ContactManager) (now contact_id name phone email category notes : String) :
    Bool × ContactManager :=
  match updateFirst now contact_id name phone email category notes cm.contacts with
  | none => (false, cm)
  | some (contacts2, old, new) =>
    (true,
     save_contacts
       { cm with
         contacts := contacts2,
         undo_stack := pushUndo cm.undo_stack (UndoAction.upd old new) })

/-- The lookup-and-remove loop of `delete_contact`. -/
def deleteFirst (contact_id : String) :
    List Contact → Option (List Contact × Contact)
  | [] => none
  | c :: rest =>
    if c.id == contact_id then some (rest, c)
    else
      match deleteFirst contact_id rest with
      | none => none
      | some (rest2, d) => some (c :: rest2, d)

/-- `ContactManager.delete_contact`. -/
def delete_contact (cm : ContactManager) (contact_id : String) :
    Bool × ContactManager :=
  match deleteFirst contact_id cm.contacts with
  | none => (false, cm)
  | some (contacts2, d) =>
    (true,
     save_contacts
       { cm with
         contacts := contacts2,
         undo_stack := pushUndo cm.undo_stack (UndoAction.del d) })

/-- `ContactManager.undo`: pop the most recent entry; reverse it by its
tag.  The source dispatches on the tags `add`, `delete`, `update` and
the CSV batch tag, but has no branch for the tag pushed by
`restore_backup`, whose entry is therefore popped without reversing
anything; in every non-empty case it then saves and returns `True`. -/
def undo (cm : ContactManager) : Bool × ContactManager :=
  match cm.undo_stack.getLast? with
  | none => (false, cm)
  | some action =>
    let cm1 : ContactManager := { cm with undo_stack := cm.undo_stack.dropLast }
    let cm2 : ContactManager :=
      match action with
      | UndoAction.add c =>
        { cm1 with contacts := cm1.contacts.filter (fun x => x.id != c.id) }
      | UndoAction.del c =>
        { cm1 with contacts := cm1.contacts ++ [c] }
      | UndoAction.upd old new =>
        { cm1 with contacts := cm1.contacts.map (fun x => if x.id == new.id then old else x) }
      | UndoAction.imp cs =>
        { cm1 with contacts := cm1.contacts.filter (fun x => !((cs.map Contact.id).contains x.id)) }
      | UndoAction.restore _ => cm1
    (true, save_contacts cm2)

/-- `Contact.getField`: `contact[field]` as a partial lookup; `none`
models the `KeyError` the source dict raises for any other key. -/
def Contact.getField (c : Contact) : String → Option String
  | "id" => some c.id
  | "name" => some c.name
  | "phone" => some c.phone
  | "email" => some c.email
  | "category" => some c.category
  | "notes" => some c.notes
  | "last_modified" => some c.last_modified
  | _ => none

/-- Python's `needle in hay` substring test, on character lists. -/
def listContainsSub (needle : List Char) : List Char → Bool
  | [] => needle.isEmpty
  | c :: rest => needle.isPrefixOf (c :: rest) || listContainsSub needle rest

def strContainsSub (hay needle : String) : Bool :=
  listContainsSub needle.data hay.data

/-- The `field = 'all'` match of `search_contacts` (term already
lowercased by the caller). -/
def anyFieldMatch (c : Contact) (t : String) : Bool :=
  strContainsSub (pyLower c.name) t ||
  strContainsSub (pyLower c.phone) t ||
  strContainsSub (pyLower c.email) t ||
  strContainsSub (pyLower c.category) t ||
  strContainsSub (pyLower c.notes) t

/-- `ContactManager.search_contacts`.  For a field other than `'all'`
the source evaluates `contact[field]` on every record; since every
record carries exactly the seven keys, a field naming none of them
raises `KeyError` as soon as the list is non-empty — modelled by
`none`. -/
def search_contacts (cm : ContactManager) (search_term field : String) :
    Option (List Contact) :=
  let t := pyLower search_term
  if field = "all" then
    some (cm.contacts.filter (fun c => anyFieldMatch c t))
  else if cm.contacts.all (fun c => (c.getField field).isSome) then
    some (cm.contacts.filter (fun c =>
      strContainsSub (pyLower ((c.getField field).getD "")) t))
  else
    none

/-- `ContactManager.filter_by_category`. -/
def filter_by_category (cm : ContactManager) (category : String) : List Contact :=
  if category = "All" then cm.contacts
  else cm.contacts.filter (fun c => c.category == category)

/-- `ContactManager.view_contacts`. -/
def view_contacts (cm : ContactManager) : List Contact :=
  cm.contacts

/-- One parsed CSV row as `csv.DictReader` hands it to the import loop.
`name` and `phone` are required columns; `email`, `category` and
`notes` are `none` when their column is absent (`row.get` defaults).
For `id` and `last_modified` the source defaults an absent column to a
fresh `uuid4` / current timestamp; those generated values are external
effects, so the field holds the already-resolved string. -/
structure CsvRow where
  id : String
  name : String
  phone : String
  email : Option String
  category : Option String
  notes : Option String
  last_modified : String
deriving Repr, DecidableEq

def rowEmail (r : CsvRow) : String := (r.email).getD ""

/-- The contact dict built for a surviving row. -/
def rowToContact (r : CsvRow) : Contact :=
  ⟨r.id, r.name, r.phone, rowEmail r, (r.category).getD "Other", (r.notes).getD "", r.last_modified⟩

/-- The warning issued for a row that fails validation. -/
def rowWarning (r : CsvRow) (msg : String) : String :=
  "Skipping invalid contact " ++ r.name ++ ": " ++ msg

/-- The row loop of `import_from_csv`: each row is validated (invalid
rows are skipped with a warning) and checked against `self.contacts` —
which the loop never extends, so every row is checked against the
pre-import list; valid, non-duplicate rows are collected in order.
Returns the collected contacts and the warnings. -/
def importLoop (cm : ContactManager) : List CsvRow → List Contact × List String
  | [] => ([], [])
  | r :: rest =>
    let acc := importLoop cm rest
    if (validate_inputs r.name r.phone (rowEmail r)).1 = false then
      (acc.1, rowWarning r (validate_inputs r.name r.phone (rowEmail r)).2 :: acc.2)
    else if is_duplicate cm r.name r.phone (rowEmail r) then
      acc
    else
      (rowToContact r :: acc.1, acc.2)

/-- `ContactManager.import_from_csv` on a readable file whose rows are
`rows`: collect the surviving rows; when at least one survived, push
them all as one batch undo entry, append them and save; return `True`
either way, together with the warnings issued. -/
def import_from_csv (cm : ContactManager) (rows : List CsvRow) :
    Bool × ContactManager × List String :=
  let acc := importLoop cm rows
  if acc.1.isEmpty then (true, cm, acc.2)
  else
    (true,
     save_contacts
       { cm with
         undo_stack := pushUndo cm.undo_stack (UndoAction.imp acc.1),
         contacts := cm.contacts ++ acc.1 },
     acc.2)

/-- `ContactManager.restore_backup`: `backup` is the parsed contents of
the backup file — `some cs` for a well-formed JSON list, `none` for an
unreadable file, malformed JSON or a non-list value.  On success it
pushes the pre-restore list as an undo entry, replaces the list
wholesale, saves and returns `true`; otherwise returns `false` leaving
the state untouched. -/
def restore_backup (cm : ContactManager) (backup : Option (List Contact)) :
    Bool × ContactManager :=
  match backup with
  | some cs =>
    (true,
     save_contacts
       { cm with
         undo_stack := pushUndo cm.undo_stack (UndoAction.restore cm.contacts),
         contacts := cs })
  | none => (false, cm)

/-! ## Claim theorems -/

/-- C1: the spec says the canonical E.164 string is what `add` stores.
In the source the E.164 value computed inside `validate_inputs` is
discarded, and `add_contact` stores the caller's raw phone argument:
for the validated input `"+1 234 567 8900"` (canonical form
`"+12345678900"`) the stored record's phone field is the raw string,
which differs from the canonical form. -/
theorem c1_add_stores_raw_phone :
    (validate_inputs "Jane Doe" "+1 234 567 8900" "").1 = true ∧
    normalizePhone "+1 234 567 8900" = "+12345678900" ∧
    (add_contact ⟨[], [], []⟩ "id1" "t1" "Jane Doe" "+1 234 567 8900" "" "Other" "").2.contacts
      = [⟨"id1", "Jane Doe", "+1 234 567 8900", "", "Other", "", "t1"⟩] ∧
    "+1 234 567 8900" ≠ "+12345678900" := by
  decide

/-- C2 counterexample: after a successful add with phone
`"+1 234 567 8900"`, the differently formatted string `"12345678900"`
denoting the same number does NOT register as a duplicate: the
region-agnostic parse rejects it (no `+` country code, and the store
never supplies a country default), the raw fallback `"12345678900"`
differs from the stored raw string `"+1 234 567 8900"`, and name and
email do not match either, so `is_duplicate` returns false. -/
theorem c2_counterexample_same_number_not_duplicate :
    ((add_contact ⟨[], [], []⟩ "id1" "t1" "Jane Doe" "+1 234 567 8900" "" "Other" "").1).isSome
      = true ∧
    is_duplicate
      (add_contact ⟨[], [], []⟩ "id1" "t1" "Jane Doe" "+1 234 567 8900" "" "Other" "").2
      "Bob" "12345678900" "" = false := by
  decide

/-- C3: the spec says undoing a `Restore` replaces the current list
with the pre-restore snapshot.  The source's `undo` has no branch for
the `'restore'` tag pushed by `restore_backup`: on a store holding
`[A]` restored to `[B]`, `undo` pops the restore entry, saves and
returns true, but the list stays `[B]` instead of reverting to the
snapshot `[A]`. -/
theorem c3_undo_of_restore_keeps_restored_list :
    let A : Contact := ⟨"a1", "Alice", "+12025550101", "", "Other", "", "t0"⟩
    let B : Contact := ⟨"b1", "Bob", "+12025550102", "", "Other", "", "t0"⟩
    (restore_backup ⟨[A], [], [A]⟩ (some [B])).1 = true ∧
    (restore_backup ⟨[A], [], [A]⟩ (some [B])).2.undo_stack = [UndoAction.restore [A]] ∧
    (undo (restore_backup ⟨[A], [], [A]⟩ (some [B])).2).1 = true ∧
    (undo (restore_backup ⟨[A], [], [A]⟩ (some [B])).2).2.contacts = [B] ∧
    [B] ≠ [A] := by
  decide

/-- C9 counterexample: `search` is not total in the field argument.
For the field name `"address"` (not `"all"` and not one of the seven
record keys) on a non-empty store, the source evaluates
`contact["address"]` and raises `KeyError` — modelled as `none` — so
the call is an error rather than a list of matches. -/
theorem c9_counterexample_unknown_field :
    search_contacts ⟨[⟨"a1", "Alice", "+12025550101", "", "Other", "", "t0"⟩], [], []⟩
      "a" "address" = none ∧
    "address" ≠ "all" := by
  decide

/-- C10: one `import_from_csv` call whose two rows are valid and
identical on name, phone and email, against a store with no matching
record, adds both rows: each row's duplicate check runs against the
pre-import list only, so the second identical row is not filtered. -/
theorem c10_import_adds_both_identical_rows :
    let r1 : CsvRow := ⟨"idA", "John Smith", "+12345678900", some "a@b.com", none, none, "t1"⟩
    let r2 : CsvRow := ⟨"idB", "John Smith", "+12345678900", some "a@b.com", none, none, "t1"⟩
    let res := import_from_csv ⟨[], [], []⟩ [r1, r2]
    res.1 = true ∧
    res.2.1.contacts = [rowToContact r1, rowToContact r2] ∧
    (rowToContact r1).name = (rowToContact r2).name ∧
    (rowToContact r1).phone = (rowToContact r2).phone ∧
    (rowToContact r1).email = (rowToContact r2).email := by
  decide

/-! ## Helper lemmas -/

theorem pushUndo_getLast (stack : List UndoAction) (a : UndoAction) :
    (pushUndo stack a).getLast? = some a := by
  unfold pushUndo
  have hk : (stack ++ [a]).length - UNDO_MAXLEN ≤ stack.length := by
    simp only [List.length_append, List.length_cons, List.length_nil, UNDO_MAXLEN]
    omega
  rw [List.drop_append_of_le_length hk]
  exact List.getLast?_concat _

theorem pushUndo_length_le (stack : List UndoAction) (a : UndoAction) :
    (pushUndo stack a).length ≤ UNDO_MAXLEN := by
  unfold pushUndo
  simp [UNDO_MAXLEN]
  omega

theorem pushUndo_undo_stack_unchanged_by_save (cm : ContactManager) :
    (save_contacts cm).undo_stack = cm.undo_stack := rfl

/-- C2 counterexample is above; this is the amended claim.  After a
successful add, the stored phone field is the raw input string; a later
`is_duplicate` query matches on phone exactly when the query's
normalization (E.164 on parse success, the raw string otherwise)
coincides with that stored string. -/
theorem c2_duplicate_matches_stored_phone (cm : ContactManager)
    (newId now name phone email category notes name2 q email2 : String)
    (hsucc : ((add_contact cm newId now name phone email category notes).1).isSome = true)
    (hq : normalizePhone q = phone) :
    is_duplicate (add_contact cm newId now name phone email category notes).2
      name2 q email2 = true := by
  by_cases hd : is_duplicate cm name phone email
  · simp [add_contact, hd] at hsucc
  · simp only [add_contact, hd, if_neg, Bool.false_eq_true, not_false_eq_true, if_false]
    simp [is_duplicate, save_contacts, hq, List.any_append]

/-- C2 amended witness: adding a record whose phone is entered in
canonical E.164 form, then querying `is_duplicate` with a differently
formatted rendering of the same number, reports a duplicate. -/
theorem c2_duplicate_matches_stored_phone_witness :
    is_duplicate
      (add_contact ⟨[], [], []⟩ "id1" "t1" "Jane Doe" "+12345678900" "" "Other" "").2
      "Bob" "+1 234 567 8900" "" = true :=
  c2_duplicate_matches_stored_phone ⟨[], [], []⟩ "id1" "t1" "Jane Doe" "+12345678900"
    "" "Other" "" "Bob" "+1 234 567 8900" "" (by decide) (by decide)

theorem updateFirst_eq_none (now contact_id name phone email category notes : String)
    (l : List Contact) (h : ∀ c ∈ l, c.id ≠ contact_id) :
    updateFirst now contact_id name phone email category notes l = none := by
  induction l with
  | nil => rfl
  | cons c rest ih =>
    have hc : (c.id == contact_id) = false := by
      simp only [beq_eq_false_iff_ne, ne_eq]
      exact h c (List.mem_cons_self c rest)
    simp only [updateFirst, hc, Bool.false_eq_true, if_false]
    rw [ih (fun x hx => h x (List.mem_cons_of_mem c hx))]

/-- C6: `update` with an id not present in the record list returns
false and returns the store exactly as it was — record list, undo log
and persisted file all unchanged. -/
theorem c6_update_missing_id_noop (cm : ContactManager)
    (now contact_id name phone email category notes : String)
    (h : ∀ c ∈ cm.contacts, c.id ≠ contact_id) :
    update_contact cm now contact_id name phone email category notes = (false, cm) := by
  unfold update_contact
  rw [updateFirst_eq_none now contact_id name phone email category notes cm.contacts h]

/-- C6 witness at a concrete store and a concrete absent id. -/
theorem c6_update_missing_id_noop_witness :
    (∀ c ∈ ({ contacts := [⟨"a1", "Alice", "+12025550101", "", "Other", "", "t0"⟩],
              undo_stack := [], file := [] } : ContactManager).contacts, c.id ≠ "zz") ∧
    update_contact
      { contacts := [⟨"a1", "Alice", "+12025550101", "", "Other", "", "t0"⟩],
        undo_stack := [], file := [] }
      "t1" "zz" "Bob" "+12025550102" "" "Other" "" =
      (false,
       { contacts := [⟨"a1", "Alice", "+12025550101", "", "Other", "", "t0"⟩],
         undo_stack := [], file := [] }) :=
  ⟨by decide,
   c6_update_missing_id_noop
     { contacts := [⟨"a1", "Alice", "+12025550101", "", "Other", "", "t0"⟩],
       undo_stack := [], file := [] }
     "t1" "zz" "Bob" "+12025550102" "" "Other" "" (by decide)⟩

/-- C7: when the candidate matches an existing record per
`is_duplicate`, `add` returns the not-added signal `none` and the
store — record list, undo log and persisted file — is exactly the one
passed in. -/
theorem c7_duplicate_add_is_noop (cm : ContactManager)
    (newId now name phone email category notes : String)
    (h : is_duplicate cm name phone email = true) :
    add_contact cm newId now name phone email category notes = (none, cm) := by
  simp [add_contact, h]

/-- C7 witness: re-adding Jane's exact data is flagged duplicate and
changes nothing. -/
theorem c7_duplicate_add_is_noop_witness :
    is_duplicate
      { contacts := [⟨"id1", "Jane Doe", "+12345678900", "", "Other", "", "t1"⟩],
        undo_stack := [], file := [] } "Jane Doe" "+12345678900" "" = true ∧
    add_contact
      { contacts := [⟨"id1", "Jane Doe", "+12345678900", "", "Other", "", "t1"⟩],
        undo_stack := [], file := [] } "id2" "t2" "Jane Doe" "+12345678900" "" "Other" "" =
      (none,
       { contacts := [⟨"id1", "Jane Doe", "+12345678900", "", "Other", "", "t1"⟩],
         undo_stack := [], file := [] }) :=
  ⟨by decide,
   c7_duplicate_add_is_noop
     { contacts := [⟨"id1", "Jane Doe", "+12345678900", "", "Other", "", "t1"⟩],
       undo_stack := [], file := [] }
     "id2" "t2" "Jane Doe" "+12345678900" "" "Other" "" (by decide)⟩

/-- C5: for any store state and any valid, non-duplicate input (with
the generated uuid fresh, which the source assumes of `uuid4`), a
successful `add` followed immediately by `undo` returns true and
leaves the record list exactly as it was before the add, id for id. -/
theorem c5_add_then_undo_restores (cm : ContactManager)
    (newId now name phone email category notes : String)
    (_hvalid : (validate_inputs name phone email).1 = true)
    (hfresh : ∀ c ∈ cm.contacts, c.id ≠ newId)
    (hsucc : ((add_contact cm newId now name phone email category notes).1).isSome = true) :
    (undo (add_contact cm newId now name phone email category notes).2).1 = true ∧
    (undo (add_contact cm newId now name phone email category notes).2).2.contacts
      = cm.contacts := by
  by_cases hd : is_duplicate cm name phone email
  · simp [add_contact, hd] at hsucc
  · have hlast := pushUndo_getLast cm.undo_stack
      (UndoAction.add ⟨newId, name, phone, email, category, notes, now⟩)
    simp only [add_contact, hd, Bool.false_eq_true, if_false, undo, save_contacts, hlast]
    constructor
    · trivial
    · rw [List.filter_append]
      have h1 : cm.contacts.filter (fun x => x.id != newId) = cm.contacts := by
        rw [List.filter_eq_self]
        intro x hx
        simpa using hfresh x hx
      have h2 : ([(⟨newId, name, phone, email, category, notes, now⟩ : Contact)].filter
          (fun x => x.id != newId)) = [] := by simp
      rw [h1, h2, List.append_nil]

/-- C5 witness: the scenario of the spec — an empty store, a valid
fresh add of Jane, then undo, leaving the store empty again. -/
theorem c5_add_then_undo_restores_witness :
    (validate_inputs "Jane Doe" "+14155550123" "jane@example.com").1 = true ∧
    (∀ c ∈ (⟨[], [], []⟩ : ContactManager).contacts, c.id ≠ "id1") ∧
    ((add_contact ⟨[], [], []⟩ "id1" "t1" "Jane Doe" "+14155550123" "jane@example.com"
        "Other" "").1).isSome = true ∧
    (undo (add_contact ⟨[], [], []⟩ "id1" "t1" "Jane Doe" "+14155550123" "jane@example.com"
        "Other" "").2).1 = true ∧
    (undo (add_contact ⟨[], [], []⟩ "id1" "t1" "Jane Doe" "+14155550123" "jane@example.com"
        "Other" "").2).2.contacts = (⟨[], [], []⟩ : ContactManager).contacts := by
  refine ⟨by decide, by decide, by decide, ?_⟩
  exact c5_add_then_undo_restores ⟨[], [], []⟩ "id1" "t1" "Jane Doe" "+14155550123"
    "jane@example.com" "Other" "" (by decide) (by decide) (by decide)

theorem foldl_pushUndo (es : List UndoAction) :
    ∀ stack : List UndoAction, stack.length ≤ UNDO_MAXLEN →
      es.foldl pushUndo stack =
        (stack ++ es).drop (stack.length + es.length - UNDO_MAXLEN) := by
  induction es with
  | nil =>
    intro stack h
    have h0 : stack.length + ([] : List UndoAction).length - UNDO_MAXLEN = 0 := by
      simp only [List.length_nil]
      omega
    rw [List.foldl_nil, List.append_nil, h0, List.drop_zero]
  | cons a es ih =>
    intro stack h
    rw [List.foldl_cons, ih (pushUndo stack a) (pushUndo_length_le stack a)]
    show (((stack ++ [a]).drop ((stack ++ [a]).length - UNDO_MAXLEN)) ++ es).drop
        (((stack ++ [a]).drop ((stack ++ [a]).length - UNDO_MAXLEN)).length + es.length
          - UNDO_MAXLEN)
      = (stack ++ a :: es).drop (stack.length + (a :: es).length - UNDO_MAXLEN)
    have hk : (stack ++ [a]).length - UNDO_MAXLEN ≤ (stack ++ [a]).length :=
      Nat.sub_le _ _
    rw [← List.drop_append_of_le_length hk, List.drop_drop]
    rw [List.append_assoc, List.singleton_append]
    congr 1
    simp only [List.length_drop, List.length_append, List.length_cons, List.length_nil,
      UNDO_MAXLEN]
    omega

/-- C4: pushing 11 entries (one per successful mutation) onto any undo
log of legal size leaves exactly 10: the resulting log is exactly the
last 10 of the 11 pushed entries — the oldest pushed entry (and
everything before it) is silently discarded — the top of the log is
the most recent entry, and the next `undo` succeeds by popping it. -/
theorem c4_undo_log_bounded (stack es : List UndoAction) (cs fs : List Contact)
    (h : es.length = 11) :
    (es.foldl pushUndo stack).length = 10 ∧
    es.foldl pushUndo stack = es.drop 1 ∧
    (es.foldl pushUndo stack).getLast? = es.getLast? ∧
    (undo ⟨cs, es.foldl pushUndo stack, fs⟩).1 = true := by
  match es, h with
  | a :: es2, h =>
  have h2 : es2.length = 10 := by simpa using h
  have hfold : (a :: es2).foldl pushUndo stack = es2 := by
    rw [List.foldl_cons,
      foldl_pushUndo es2 (pushUndo stack a) (pushUndo_length_le stack a), h2]
    have : (pushUndo stack a).length + 10 - UNDO_MAXLEN = (pushUndo stack a).length := by
      simp only [UNDO_MAXLEN]
      omega
    rw [this, List.drop_left]
  match es2, h2 with
  | b :: es3, h2 =>
  refine ⟨by rw [hfold]; exact h2, by rw [hfold]; rfl, ?_, ?_⟩
  · rw [hfold]
    exact (List.getLast?_cons_cons).symm
  · rw [hfold]
    rcases hlast : (b :: es3).getLast? with _ | x
    · simp at hlast
    · simp [undo, hlast]

/-- C4 witness at a concrete sequence of 11 pushed entries. -/
theorem c4_undo_log_bounded_witness :
    (List.replicate 11 (UndoAction.restore [])).length = 11 ∧
    (((List.replicate 11 (UndoAction.restore [])).foldl pushUndo []).length = 10 ∧
     (List.replicate 11 (UndoAction.restore [])).foldl pushUndo []
       = (List.replicate 11 (UndoAction.restore [])).drop 1 ∧
     ((List.replicate 11 (UndoAction.restore [])).foldl pushUndo []).getLast?
       = (List.replicate 11 (UndoAction.restore [])).getLast? ∧
     (undo ⟨[], (List.replicate 11 (UndoAction.restore [])).foldl pushUndo [], []⟩).1
       = true) :=
  ⟨by decide, c4_undo_log_bounded [] (List.replicate 11 (UndoAction.restore [])) [] []
    (by decide)⟩

/-- C9 amended: for every field argument naming one of the seven actual
record fields, search is total and returns exactly the records whose
value in that one field contains the term as a case-insensitive
substring (an empty result list is a valid outcome); the totality
claimed for arbitrary other field names fails (see the counterexample:
an unknown field raises `KeyError` on a non-empty store). -/
theorem c9_search_total_on_record_fields (cm : ContactManager) (term field : String)
    (h : field = "id" ∨ field = "name" ∨ field = "phone" ∨ field = "email" ∨
         field = "category" ∨ field = "notes" ∨ field = "last_modified") :
    search_contacts cm term field =
      some (cm.contacts.filter (fun c =>
        strContainsSub (pyLower ((c.getField field).getD "")) (pyLower term))) := by
  have hall : ¬(field = "all") := by
    rcases h with h | h | h | h | h | h | h <;> subst h <;> decide
  have hsome : cm.contacts.all (fun c => (c.getField field).isSome) = true := by
    rw [List.all_eq_true]
    intro c _
    rcases h with h | h | h | h | h | h | h <;> subst h <;> rfl
  simp only [search_contacts, if_neg hall, hsome, if_true]

/-- C9 amended witness: searching the `name` field on a one-record
store. -/
theorem c9_search_total_on_record_fields_witness :
    (("name" : String) = "id" ∨ "name" = "name" ∨ "name" = "phone" ∨ "name" = "email" ∨
     "name" = "category" ∨ "name" = "notes" ∨ "name" = "last_modified") ∧
    search_contacts
        ⟨[⟨"a1", "Alice", "+12025550101", "", "Other", "", "t0"⟩], [], []⟩ "lic" "name" =
      some ((⟨[⟨"a1", "Alice", "+12025550101", "", "Other", "", "t0"⟩], [], []⟩ :
          ContactManager).contacts.filter (fun c =>
        strContainsSub (pyLower ((c.getField "name").getD "")) (pyLower "lic"))) :=
  ⟨Or.inr (Or.inl rfl),
   c9_search_total_on_record_fields
     ⟨[⟨"a1", "Alice", "+12025550101", "", "Other", "", "t0"⟩], [], []⟩ "lic" "name"
     (Or.inr (Or.inl rfl))⟩

/-- A row passes the per-row validation of the import loop. -/
def rowValid (r : CsvRow) : Bool :=
  (validate_inputs r.name r.phone (rowEmail r)).1

/-- A row survives the import filtering: valid and not a duplicate of
the pre-import record list. -/
def rowSurvives (cm : ContactManager) (r : CsvRow) : Bool :=
  rowValid r && !(is_duplicate cm r.name r.phone (rowEmail r))

theorem importLoop_spec (cm : ContactManager) (rows : List CsvRow) :
    importLoop cm rows =
      ((rows.filter (fun r => rowSurvives cm r)).map rowToContact,
       (rows.filter (fun r => !(rowValid r))).map
         (fun r => rowWarning r (validate_inputs r.name r.phone (rowEmail r)).2)) := by
  induction rows with
  | nil => rfl
  | cons r rest ih =>
    cases hv : (validate_inputs r.name r.phone (rowEmail r)).1 with
    | false =>
      simp [importLoop, ih, hv, rowValid, rowSurvives, List.filter_cons]
    | true =>
      cases hd : is_duplicate cm r.name r.phone (rowEmail r) with
      | false =>
        simp [importLoop, ih, hv, hd, rowValid, rowSurvives, List.filter_cons]
      | true =>
        simp [importLoop, ih, hv, hd, rowValid, rowSurvives, List.filter_cons]

/-- C8: on a readable CSV whose parsed rows are `rows` (row ids fresh,
as `uuid4` guarantees for generated ids), the import returns true —
also when zero rows survive — the warnings are exactly one per invalid
row (duplicates are skipped silently), exactly the surviving rows are
appended in order, and when the batch is non-empty it is pushed as one
single undo entry whose single undo removes the whole batch. -/
theorem c8_import_csv_batch (cm : ContactManager) (rows : List CsvRow)
    (hfresh : ∀ c ∈ cm.contacts, ∀ r ∈ rows, c.id ≠ r.id) :
    (import_from_csv cm rows).1 = true ∧
    (import_from_csv cm rows).2.2 =
      (rows.filter (fun r => !(rowValid r))).map
        (fun r => rowWarning r (validate_inputs r.name r.phone (rowEmail r)).2) ∧
    (import_from_csv cm rows).2.1.contacts =
      cm.contacts ++ (rows.filter (fun r => rowSurvives cm r)).map rowToContact ∧
    ((rows.filter (fun r => rowSurvives cm r)).map rowToContact = [] →
      (import_from_csv cm rows).2.1 = cm) ∧
    ((rows.filter (fun r => rowSurvives cm r)).map rowToContact ≠ [] →
      (import_from_csv cm rows).2.1.undo_stack =
        pushUndo cm.undo_stack
          (UndoAction.imp ((rows.filter (fun r => rowSurvives cm r)).map rowToContact)) ∧
      (undo (import_from_csv cm rows).2.1).1 = true ∧
      (undo (import_from_csv cm rows).2.1).2.contacts = cm.contacts) := by
  have hloop := importLoop_spec cm rows
  by_cases hempty : (rows.filter (fun r => rowSurvives cm r)).map rowToContact = []
  · refine ⟨?_, ?_, ?_, ?_, ?_⟩ <;>
      simp [import_from_csv, hloop, hempty]
  · have hie : ((rows.filter (fun r => rowSurvives cm r)).map rowToContact).isEmpty
        = false := by
      cases hs : ((rows.filter (fun r => rowSurvives cm r)).map rowToContact).isEmpty
      · rfl
      · simp only [List.isEmpty_iff] at hs
        exact absurd hs hempty
    have hlast := pushUndo_getLast cm.undo_stack
      (UndoAction.imp ((rows.filter (fun r => rowSurvives cm r)).map rowToContact))
    have hfilter :
        ((cm.contacts ++ (rows.filter (fun r => rowSurvives cm r)).map rowToContact).filter
          (fun x => !((((rows.filter (fun r => rowSurvives cm r)).map rowToContact).map
            Contact.id).contains x.id))) = cm.contacts := by
      rw [List.filter_append]
      have h1 : cm.contacts.filter
          (fun x => !((((rows.filter (fun r => rowSurvives cm r)).map rowToContact).map
            Contact.id).contains x.id)) = cm.contacts := by
        rw [List.filter_eq_self]
        intro x hx
        have hnot : x.id ∉ ((rows.filter (fun r => rowSurvives cm r)).map rowToContact).map
            Contact.id := by
          intro hmem
          rcases List.mem_map.1 hmem with ⟨y, hy, hyx⟩
          rcases List.mem_map.1 hy with ⟨r, hr, hry⟩
          have hrid : y.id = r.id := by rw [← hry]; rfl
          exact hfresh x hx r (List.mem_of_mem_filter hr) (by rw [← hyx, hrid])
        simpa using hnot
      have h2 : ((rows.filter (fun r => rowSurvives cm r)).map rowToContact).filter
          (fun x => !((((rows.filter (fun r => rowSurvives cm r)).map rowToContact).map
            Contact.id).contains x.id)) = [] := by
        rw [List.filter_eq_nil_iff]
        intro x hx
        have hmem : x.id ∈ ((rows.filter (fun r => rowSurvives cm r)).map rowToContact).map
            Contact.id := List.mem_map_of_mem Contact.id hx
        have hcont : ((((rows.filter (fun r => rowSurvives cm r)).map rowToContact).map
            Contact.id).contains x.id) = true := by simpa using hmem
        rw [hcont]
        decide
      rw [h1, h2, List.append_nil]
    refine ⟨?_, ?_, ?_, ?_, ?_⟩
    · simp [import_from_csv, hloop, hie]
    · simp [import_from_csv, hloop, hie]
    · simp [import_from_csv, hloop, hie, save_contacts]
    · intro h
      exact absurd h hempty
    · intro _
      refine ⟨?_, ?_, ?_⟩
      · simp [import_from_csv, hloop, hie, save_contacts]
      · simp [import_from_csv, hloop, hie, save_contacts, undo, hlast]
      · simp only [import_from_csv, hloop, hie, Bool.false_eq_true, if_false,
          save_contacts, undo, hlast]
        simpa using hfilter

/-- C8 witness: the spec scenario — two valid rows and one row with an
invalid phone, imported into an empty store. -/
theorem c8_import_csv_batch_witness :
    let rows : List CsvRow :=
      [⟨"cA", "Alice Smith", "+12025550101", some "", none, none, "t1"⟩,
       ⟨"cB", "Bob Jones", "+12025550102", some "", none, none, "t1"⟩,
       ⟨"cC", "Carol White", "12345", some "", none, none, "t1"⟩]
    let cm : ContactManager := ⟨[], [], []⟩
    (∀ c ∈ cm.contacts, ∀ r ∈ rows, c.id ≠ r.id) ∧
    ((import_from_csv cm rows).1 = true ∧
     (import_from_csv cm rows).2.2 =
       (rows.filter (fun r => !(rowValid r))).map
         (fun r => rowWarning r (validate_inputs r.name r.phone (rowEmail r)).2) ∧
     (import_from_csv cm rows).2.1.contacts =
       cm.contacts ++ (rows.filter (fun r => rowSurvives cm r)).map rowToContact ∧
     ((rows.filter (fun r => rowSurvives cm r)).map rowToContact = [] →
       (import_from_csv cm rows).2.1 = cm) ∧
     ((rows.filter (fun r => rowSurvives cm r)).map rowToContact ≠ [] →
       (import_from_csv cm rows).2.1.undo_stack =
         pushUndo cm.undo_stack
           (UndoAction.imp ((rows.filter (fun r => rowSurvives cm r)).map rowToContact)) ∧
       (undo (import_from_csv cm rows).2.1).1 = true ∧
       (undo (import_from_csv cm rows).2.1).2.contacts = cm.contacts)) := by
  refine ⟨by decide, ?_⟩
  exact c8_import_csv_batch ⟨[], [], []⟩
    [⟨"cA", "Alice Smith", "+12025550101", some "", none, none, "t1"⟩,
     ⟨"cB", "Bob Jones", "+12025550102", some "", none, none, "t1"⟩,
     ⟨"cC", "Carol White", "12345", some "", none, none, "t1"⟩] (by decide)
